import Mathlib

/-!
Shallow embedding of an S3-compatible object-storage gateway and its
transform-copy engine, translated from the repository sources:
the proxy S3 handler (ais/prxs3.go), the multi-object transform-copy
job (xact/xs/tcobjs.go), and the per-bucket transform-copy job (tcb.go).
Machine integers are modelled as Int/Nat; fallible steps return Option;
external effects (transport reads, blob-store puts, cluster calls) are
passed in as explicit parameters recording their outcomes.
-/

namespace AIStore

/-! ## Transform-copy multi-object job (XactTCObjs): pending map and refc

The per-job pending map is `r.pending.m : map[string]*tcowi`, each work
item carrying its remaining-ack counter `refc` (an atomic Int32). We embed
the map as an association list from transaction UUID to refc. -/

/-- Association list embedding of the pending map, keyed by TxnUUID. -/
abbrev Pending := List (String × Int)

/-- Lookup of the work item for a UUID, mirroring the map read
`wi, ok := r.pending.m[txnUUID]`. -/
def findRefc : Pending → String → Option Int
  | [], _ => none
  | e :: es, u => if e.1 = u then some e.2 else findRefc es u

/-- Store of a new refc value for the work item of a UUID
(mirroring the atomic store on the looked-up item). -/
def setRefc : Pending → String → Int → Pending
  | [], _, _ => []
  | e :: es, u, v => if e.1 = u then (e.1, v) :: setRefc es u v else e :: setRefc es u v

/-- Removal of the work item of a UUID, mirroring `delete(r.pending.m, txnUUID)`. -/
def eraseKey : Pending → String → Pending
  | [], _ => []
  | e :: es, u => if e.1 = u then eraseKey es u else e :: eraseKey es u

/-- Embeds `XactTCObjs.Begin`: insert a work item whose refc is the
zero-initialized atomic. -/
def XactTCObjs.Begin (p : Pending) (uuid : String) : Pending :=
  (uuid, 0) :: p

/-- Embeds the refc store performed by `XactTCObjs.Run` on work dispatch:
`wi.refc.Store(int32(nat - 1))` with `nat = smap.CountActiveTs()`. -/
def XactTCObjs.dispatch (p : Pending) (uuid : String) (nat : Int) : Pending :=
  setRefc p uuid (nat - 1)

/-- Embeds the `opcodeDone` branch of `XactTCObjs._recv`: decrement the
pending work item's refc and delete the item exactly when the decremented
value equals 0. Returns the updated map and the decremented refc
(`none` when no work item is pending for the UUID). -/
def XactTCObjs.recvDone (p : Pending) (uuid : String) : Pending × Option Int :=
  match findRefc p uuid with
  | none => (p, none)
  | some c =>
    if c - 1 = 0 then (eraseKey p uuid, some (c - 1))
    else (setRefc p uuid (c - 1), some (c - 1))

theorem findRefc_setRefc (p : Pending) (u : String) (v c : Int)
    (h : findRefc p u = some c) :
    findRefc (setRefc p u v) u = some v := by
  induction p with
  | nil => simp [findRefc] at h
  | cons e es ih =>
    by_cases he : e.1 = u
    · simp [setRefc, findRefc, he]
    · simp [findRefc, he] at h
      simp [setRefc, findRefc, he, ih h]

theorem findRefc_eraseKey (p : Pending) (u : String) :
    findRefc (eraseKey p u) u = none := by
  induction p with
  | nil => simp [eraseKey, findRefc]
  | cons e es ih =>
    by_cases he : e.1 = u
    · simp [eraseKey, he, ih]
    · simp [eraseKey, findRefc, he, ih]

/-- C1: for a pending transform-copy work item, work dispatch stores
`active-target-count − 1` into its refc; a received OpcTxnDone control
message decrements the refc by one; and the work item is removed from the
pending map exactly when the decremented refc reaches 0. -/
theorem C1_refc_protocol (p : Pending) (u : String) (nat c : Int)
    (h : findRefc p u = some c) :
    findRefc (XactTCObjs.dispatch p u nat) u = some (nat - 1) ∧
    (XactTCObjs.recvDone p u).2 = some (c - 1) ∧
    (findRefc (XactTCObjs.recvDone p u).1 u = none ↔ c - 1 = 0) := by
  refine ⟨findRefc_setRefc p u (nat - 1) c h, ?_, ?_⟩
  · by_cases hc : c - 1 = 0 <;> simp [XactTCObjs.recvDone, h, hc]
  · by_cases hc : c - 1 = 0
    · simp [XactTCObjs.recvDone, h, hc, findRefc_eraseKey]
    · simp [XactTCObjs.recvDone, h, hc, findRefc_setRefc p u (c - 1) c h]

/-- C1 witness: the protocol facts evaluated on a concrete pending map. -/
theorem C1_refc_protocol_witness :
    findRefc [("t1", (1 : Int))] "t1" = some 1 ∧
    (findRefc (XactTCObjs.dispatch [("t1", (1 : Int))] "t1" 3) "t1" = some (3 - 1) ∧
     (XactTCObjs.recvDone [("t1", (1 : Int))] "t1").2 = some (1 - 1) ∧
     (findRefc (XactTCObjs.recvDone [("t1", (1 : Int))] "t1").1 "t1" = none ↔
       (1 : Int) - 1 = 0)) :=
  ⟨by decide, C1_refc_protocol [("t1", 1)] "t1" 3 1 (by decide)⟩

/-! ## Per-bucket transform-copy job (XactTCB): quiescence callback

`XactTCB.qcb` decides, during the post-broadcast quiescence wait, whether
the job is still active, done, or timed out. Its inputs in the source are
the elapsed total wait `tot`, the accumulated error count, the refc, the
time since the last receive (`mono.Since(r.rxlast.Load())`), and three
configured durations: `cmn.Rom.MaxKeepalive()`, `cmn.Rom.CplaneOperation()`
and `Config.Timeout.SendFile`. Durations are embedded as Int nanoseconds. -/

/-- Quiescence result codes (`cluster.QuiRes`). -/
inductive QuiRes where
  | QuiInactiveCB
  | QuiActive
  | QuiDone
  | QuiTimeout
deriving DecidableEq, Repr

/-- Embeds `XactTCB.qcb`: errors break quiescence via timeout; with senders
still owing a done signal (refc > 0) the job stays active unless the Rx side
has been idle longer than max-keepalive and the total wait exceeds the
send-file timeout; with refc = 0 the job is done once the Rx side has been
idle longer than one control-plane period. -/
def XactTCB.qcb (errCnt : Nat) (refc since tot maxKeepalive cplane sendFile : Int) :
    QuiRes :=
  if 0 < errCnt then .QuiTimeout
  else if 0 < refc then
    if maxKeepalive < since then
      if sendFile < tot then .QuiTimeout else .QuiActive
    else .QuiActive
  else if cplane < since then .QuiDone
  else .QuiInactiveCB

/-- C3 counterexample: with no errors, refc = 1 > 0, control-plane period 2,
max-keepalive 4, send-file timeout 10, rx-idle time 3 and total wait 11, the
claim's exception (rx-idle > control-plane period and total wait > send-file
timeout) holds, so the claim predicts timeout; the code reports active,
because its rx-idle threshold is max-keepalive, not the control-plane period. -/
theorem C3_qcb_counterexample :
    (0 : Int) < 1 ∧ (2 : Int) < 3 ∧ (10 : Int) < 11 ∧ (2 : Int) < 4 ∧
    XactTCB.qcb 0 1 3 11 4 2 10 = QuiRes.QuiActive := by decide

/-- C3 (amended): with no accumulated errors, the quiescence callback reports
active whenever refc > 0, except that it declares timeout when there has been
no receive activity for longer than the max-keepalive period (not the
control-plane period) and the total wait exceeds the send-file timeout. -/
theorem C3_qcb_active_unless_timeout (refc since tot mk cp sf : Int)
    (h : 0 < refc) :
    XactTCB.qcb 0 refc since tot mk cp sf =
      if mk < since ∧ sf < tot then QuiRes.QuiTimeout else QuiRes.QuiActive := by
  unfold XactTCB.qcb
  rw [if_neg (by omega : ¬ (0 : Nat) < 0), if_pos h]
  by_cases h1 : mk < since
  · by_cases h2 : sf < tot
    · simp [h1, h2]
    · simp [h1, h2]
  · simp [h1]

/-- C3 witness: the amended statement evaluated at refc = 5 with rx-idle
time 10 > max-keepalive 4 and total wait 20 > send-file timeout 10. -/
theorem C3_qcb_active_unless_timeout_witness :
    (0 : Int) < 5 ∧
    XactTCB.qcb 0 5 10 20 4 2 10 =
      if (4 : Int) < 10 ∧ (10 : Int) < 20 then QuiRes.QuiTimeout
      else QuiRes.QuiActive :=
  ⟨by decide, C3_qcb_active_unless_timeout 5 10 20 4 2 10 (by decide)⟩

/-! ## Receive handlers: reader drain behavior (C4)

Both receive handlers get `(hdr, objReader, err)` from the transport.
We embed the incoming error as `Option RxErr` (`none` = nil error,
`RxErr.eof` = an error satisfying `cos.IsEOF`, `RxErr.fatal` = any other),
and record in the result whether `transport.DrainAndFreeReader` ran before
the handler returned. -/

/-- Incoming transport error classification. -/
inductive RxErr where
  | eof
  | fatal
deriving DecidableEq, Repr

/-- Control opcode signaling sender completion (tcb.go: `OpcTxnDone = 27182`;
tcobjs.go names the same opcode `opcodeDone`). -/
def OpcTxnDone : Nat := 27182

/-- Result of a receive handler: the propagated error (as a flag) and
whether the reader was drained and freed before return. -/
structure RecvOut where
  retErr : Bool
  drained : Bool
deriving DecidableEq, Repr

/-- Embeds `XactTCB.recv`: a non-EOF incoming error returns immediately
(no drain); the OpcTxnDone branch decrements refc and returns (no drain);
otherwise `_recv` runs (its InitBck/PutObject outcome abstracted as
`putErr`) and the reader is drained and freed. -/
def XactTCB.recv (errIn : Option RxErr) (opcode : Nat) (putErr : Bool) : RecvOut :=
  match errIn with
  | some RxErr.fatal => ⟨true, false⟩
  | _ =>
    if opcode = OpcTxnDone then ⟨false, false⟩
    else ⟨putErr, true⟩

/-- Embeds `XactTCObjs.recv`: a non-EOF incoming error jumps to the exit
label, skipping the drain; otherwise `_recv` runs (the OpcTxnDone branch
returns the joined error when the work item is gone, the payload branch
returns the put outcome) and the reader is drained and freed. -/
def XactTCObjs.recv (errIn : Option RxErr) (opcode : Nat) (pendingHit joinErr putErr : Bool) :
    RecvOut :=
  match errIn with
  | some RxErr.fatal => ⟨true, false⟩
  | _ =>
    ⟨if opcode = OpcTxnDone then (if pendingHit then false else joinErr) else putErr,
     true⟩

/-- C4 counterexample: the per-bucket handler invoked with a nil transport
error and an OpcTxnDone header returns without draining the reader, and the
multi-object handler invoked with a non-EOF transport error also returns
without draining — refuting drain-on-every-exit-path. -/
theorem C4_drain_counterexample :
    (XactTCB.recv none OpcTxnDone false).drained = false ∧
    (XactTCObjs.recv (some RxErr.fatal) 0 false false false).drained = false := by
  decide

/-- C4 (amended): the multi-object handler drains and frees the reader on
every exit path except when it was invoked with a non-EOF transport error;
the per-bucket handler drains only on the object-payload path — neither on
a non-EOF transport error nor on the OpcTxnDone path. -/
theorem C4_drain_exact (errIn : Option RxErr) (opc : Nat) (pe hit je : Bool) :
    ((XactTCObjs.recv errIn opc hit je pe).drained = true ↔
      errIn ≠ some RxErr.fatal) ∧
    ((XactTCB.recv errIn opc pe).drained = true ↔
      (errIn ≠ some RxErr.fatal ∧ opc ≠ OpcTxnDone)) := by
  constructor
  · cases errIn with
    | none => simp [XactTCObjs.recv]
    | some e => cases e <;> simp [XactTCObjs.recv]
  · cases errIn with
    | none =>
      by_cases ho : opc = OpcTxnDone <;> simp [XactTCB.recv, ho]
    | some e =>
      cases e <;> by_cases ho : opc = OpcTxnDone <;> simp [XactTCB.recv, ho]

/-! ## Per-object transform-copy processing: error handling (C5) -/

/-- List-range iteration modes of `lriterator` (the source also has a
template-range and a prefix mode). -/
inductive Lrp where
  | lrpList
  | lrpRange
  | lrpPref
deriving DecidableEq, Repr

/-- Classification of the error returned by `cluster.T.CopyObject`:
whether it satisfies `cmn.IsObjNotExist`. -/
inductive DoErr where
  | objNotExist
  | otherErr
deriving DecidableEq, Repr

/-- Embeds the error handling of `tcowi.do`: after the copy, an error is
passed to the job's error sink `addErr(err, msg.ContinueOnError)` unless it
is an object-not-found error raised in explicit-list mode. Returns the
`addErr` invocation (error and continue-on-error flag), or `none` when no
error is recorded. -/
def tcowiDo (err : Option DoErr) (lrp : Lrp) (contOnErr : Bool) :
    Option (DoErr × Bool) :=
  match err with
  | none => none
  | some e =>
    if ¬(e = DoErr.objNotExist) ∨ ¬(lrp = Lrp.lrpList) then some (e, contOnErr)
    else none

/-- C5 counterexample: an object-not-found error during explicit-list
iteration with continue-on-error = false is dropped without reaching the
error sink, whereas the claim (suppression only under continue-on-error,
everything else aborts) demands that it abort the job. -/
theorem C5_suppression_counterexample :
    tcowiDo (some DoErr.objNotExist) Lrp.lrpList false = none := by decide

/-- C5 (amended): an object-not-found error during explicit-list iteration
is suppressed unconditionally — regardless of continue-on-error; every other
error is recorded in the job's error sink together with the job's
continue-on-error flag. -/
theorem C5_suppression_exact (e : DoErr) (lrp : Lrp) (c : Bool) :
    tcowiDo (some e) lrp c =
      if e = DoErr.objNotExist ∧ lrp = Lrp.lrpList then none else some (e, c) := by
  cases e <;> cases lrp <;> simp [tcowiDo]

/-! ## Job abort cleanup (C6) -/

/-- Embeds the in-source part of the cleanup at label `fin` of
`XactTCObjs.Run`: when the job finished with an error (`r.Err() != nil`),
`clear(r.pending.m)` empties the pending map; otherwise it is untouched. -/
def XactTCObjs.finCleanup (errPresent : Bool) (p : Pending) : Pending :=
  if errPresent then [] else p

/-- Modelled from the spec: the destination-bucket destroy decision on abort.
The source carries only the comment `cleanup: destroy destination iff it was
created by this copy`; the destroy itself is implemented outside the sources
at hand. Per the spec, the criterion `created by this job` is recorded at
Begin — the job records whether the destination bucket already existed when
the job began — and on Aborted the destination is destroyed iff this job
created it. -/
def destroyDstOnAbort (errPresent dstExistedAtBegin : Bool) : Bool :=
  errPresent && !dstExistedAtBegin

/-- C6: when a transform-copy job finishes with an error, the destination
bucket is destroyed iff it was created by this job (equivalently, iff it did
not exist when the job began); a pre-existing destination is left intact;
and the pending map is cleared. -/
theorem C6_abort_destroys_created_dst (errPresent dstExisted : Bool) (p : Pending)
    (h : errPresent = true) :
    (destroyDstOnAbort errPresent dstExisted = true ↔ dstExisted = false) ∧
    (dstExisted = true → destroyDstOnAbort errPresent dstExisted = false) ∧
    XactTCObjs.finCleanup errPresent p = [] := by
  subst h
  cases dstExisted <;> simp [destroyDstOnAbort, XactTCObjs.finCleanup]

/-- C6 witness: cleanup evaluated on an aborted job whose destination bucket
pre-existed, with one still-pending work item. -/
theorem C6_abort_destroys_created_dst_witness :
    (destroyDstOnAbort true true = true ↔ true = false) ∧
    (true = true → destroyDstOnAbort true true = false) ∧
    XactTCObjs.finCleanup true [("t1", (2 : Int))] = [] :=
  C6_abort_destroys_created_dst true true [("t1", 2)] rfl

/-! ## S3 gateway: DeleteBucket (C7)

`proxy.delBckS3` first resolves the bucket via the BMD
(`meta.InitByNameOnly`), checks the destroy permission, forwards to the
primary, and runs `p.destroyBucket`; an `ErrBucketAlreadyExists`-style
error from the destroy is logged and ignored (success). -/

/-- Outcome classification of `p.destroyBucket`. -/
inductive DestroyErr where
  | alreadyRemoved
  | otherErr
deriving DecidableEq, Repr

/-- Gateway response, reduced to success vs an error status code. -/
inductive S3BckResp where
  | ok
  | errResp (code : Nat)
deriving DecidableEq, Repr

/-- Modelled from the spec: the BMD lookup `init-by-name` returns the bucket
when the name is in the BMD and a structured not-found error (HTTP 404)
otherwise. -/
def InitByNameOnly (bmd : List String) (b : String) : Option Nat :=
  if b ∈ bmd then none else some 404

/-- Embeds `proxy.delBckS3`, with the destroy outcome passed in explicitly
(the destroy is forwarded to the primary; its outcome is not a function of
the local BMD snapshot alone): BMD lookup failure is reported to the caller;
an already-removed-style destroy error is treated as idempotent success; any
other destroy error is reported as HTTP 500. -/
def delBckS3 (bmd : List String) (b : String) (allow : Bool)
    (destroyRes : Option DestroyErr) : S3BckResp :=
  match InitByNameOnly bmd b with
  | some code => .errResp code
  | none =>
    if ¬allow then .errResp 403
    else
      match destroyRes with
      | none => .ok
      | some DestroyErr.alreadyRemoved => .ok
      | some DestroyErr.otherErr => .errResp 500

/-- Modelled from the spec: the sequential (interference-free) destroy
outcome — the bucket is removed from the BMD when present, and an
already-destroyed-style error is produced otherwise. -/
def destroyOutcome (bmd : List String) (b : String) : Option DestroyErr × List String :=
  if b ∈ bmd then (none, bmd.erase b) else (some DestroyErr.alreadyRemoved, bmd)

/-- One gateway DeleteBucket call in a sequential run: the handler response
paired with the resulting BMD (unchanged when the BMD lookup failed, since
the destroy is then never invoked). -/
def delBckS3Seq (bmd : List String) (b : String) : S3BckResp × List String :=
  (delBckS3 bmd b true (destroyOutcome bmd b).1,
   if InitByNameOnly bmd b = none then (destroyOutcome bmd b).2 else bmd)

/-- C7 counterexample: with BMD = [b1], the first DeleteBucket of b1
succeeds and removes the bucket; the second returns 404, because the BMD
lookup fails before the destroy path (and its idempotent-success handling)
is ever reached. -/
theorem C7_delete_twice_counterexample :
    (delBckS3Seq ["b1"] "b1").1 = S3BckResp.ok ∧
    (delBckS3Seq (delBckS3Seq ["b1"] "b1").2 "b1").1 = S3BckResp.errResp 404 := by
  decide

/-- C7 (amended): the first DeleteBucket of a bucket present in the BMD
succeeds; the second returns 404 not-found because the BMD lookup precedes
the destroy; only a bucket-already-exists-style error arising from the
destroy path itself — while the lookup still succeeds — is treated as
idempotent success. -/
theorem C7_delete_twice_exact (bmd : List String) (b : String)
    (h : b ∈ bmd) (hnd : bmd.Nodup) :
    (delBckS3Seq bmd b).1 = S3BckResp.ok ∧
    (delBckS3Seq (delBckS3Seq bmd b).2 b).1 = S3BckResp.errResp 404 ∧
    delBckS3 bmd b true (some DestroyErr.alreadyRemoved) = S3BckResp.ok := by
  have hnm : b ∉ bmd.erase b := by
    intro hmem
    exact absurd (((hnd.mem_erase_iff).1 hmem).1 rfl) (by simp)
  refine ⟨?_, ?_, ?_⟩
  · simp [delBckS3Seq, delBckS3, InitByNameOnly, destroyOutcome, h]
  · simp [delBckS3Seq, delBckS3, InitByNameOnly, destroyOutcome, h, hnm]
  · simp [delBckS3, InitByNameOnly, h]

/-- C7 witness: the amended statement evaluated on BMD = [b1, b2]. -/
theorem C7_delete_twice_exact_witness :
    "b1" ∈ ["b1", "b2"] ∧ (["b1", "b2"] : List String).Nodup ∧
    ((delBckS3Seq ["b1", "b2"] "b1").1 = S3BckResp.ok ∧
     (delBckS3Seq (delBckS3Seq ["b1", "b2"] "b1").2 "b1").1 = S3BckResp.errResp 404 ∧
     delBckS3 ["b1", "b2"] "b1" true (some DestroyErr.alreadyRemoved) = S3BckResp.ok) :=
  ⟨by decide, by decide, C7_delete_twice_exact ["b1", "b2"] "b1" (by decide) (by decide)⟩

/-! ## S3 gateway: multi-object delete (C2, C9)

`proxy.delMultipleObjs` resolves the bucket, checks the delete permission,
XML-decodes the body into a key list, returns immediately on an empty list,
and otherwise invokes the cluster-wide list-range delete and writes a
DeleteResult listing every requested key as deleted (after an error write,
when the list-range call failed — the handler does not return early there). -/

/-- One write to the HTTP response body. -/
inductive BodyWrite where
  | errWrite
  | deleteResult (keys : List String)
deriving DecidableEq, Repr

/-- Response of the multi-delete handler. `okEmpty` is the bare return on an
empty key list: nothing is written, so the client sees HTTP 200 with an
empty body. -/
inductive DelResp where
  | errBucket (code : Nat)
  | errForbidden
  | errDecode
  | okEmpty
  | result (writes : List BodyWrite)
deriving DecidableEq, Repr

/-- Body writes carried by a response. -/
def respWrites : DelResp → List BodyWrite
  | .result ws => ws
  | _ => []

/-- Embeds the loop building `lrMsg.ObjNames` by appending each decoded key. -/
def buildObjNames (objs : List String) : List String :=
  objs.foldl (fun acc o => acc ++ [o]) []

/-- Embeds the loop building the DeleteResult `Objs` entries, one per name
in `lrMsg.ObjNames`. -/
def buildDeleted (names : List String) : List String :=
  names.foldl (fun acc n => acc ++ [n]) []

/-- Embeds `proxy.delMultipleObjs`. Inputs: the BMD, the bucket, the
permission-check outcome, the XML-decoded key list (`none` = decode error)
and whether the list-range call failed. Returns the response and the
recorded list-range invocation (the object names it was given, when it was
invoked). -/
def delMultipleObjs (bmd : List String) (b : String) (allow : Bool)
    (decoded : Option (List String)) (lrErr : Bool) :
    DelResp × Option (List String) :=
  match InitByNameOnly bmd b with
  | some code => (.errBucket code, none)
  | none =>
    if ¬allow then (.errForbidden, none)
    else
      match decoded with
      | none => (.errDecode, none)
      | some keys =>
        if keys = [] then (.okEmpty, none)
        else
          let names := buildObjNames keys
          let ws :=
            if lrErr then
              [BodyWrite.errWrite, BodyWrite.deleteResult (buildDeleted names)]
            else [BodyWrite.deleteResult (buildDeleted names)]
          (.result ws, some names)

theorem foldl_append_acc (l acc : List String) :
    l.foldl (fun a o => a ++ [o]) acc = acc ++ l := by
  induction l generalizing acc with
  | nil => simp
  | cons x xs ih => simp [List.foldl, ih]

theorem buildObjNames_id (l : List String) : buildObjNames l = l := by
  simp [buildObjNames, foldl_append_acc]

theorem buildDeleted_id (l : List String) : buildDeleted l = l := by
  simp [buildDeleted, foldl_append_acc]

/-- C2: a multi-object delete whose decoded XML body lists a non-empty key
sequence invokes the cluster-wide list-range delete on exactly those keys
and writes a DeleteResult with exactly `keys.length` entries, each requested
key listed as successfully deleted. -/
theorem C2_multi_delete (bmd : List String) (b : String) (keys : List String)
    (lrErr : Bool) (hb : b ∈ bmd) (hk : keys ≠ []) :
    (delMultipleObjs bmd b true (some keys) lrErr).2 = some (buildObjNames keys) ∧
    buildObjNames keys = keys ∧
    BodyWrite.deleteResult (buildDeleted (buildObjNames keys)) ∈
      respWrites (delMultipleObjs bmd b true (some keys) lrErr).1 ∧
    (buildDeleted (buildObjNames keys)).length = keys.length := by
  refine ⟨?_, buildObjNames_id keys, ?_, by simp [buildDeleted_id, buildObjNames_id]⟩
  · simp [delMultipleObjs, InitByNameOnly, hb, hk]
  · cases lrErr <;>
      simp [delMultipleObjs, InitByNameOnly, hb, hk, respWrites]

/-- C2 witness: the multi-delete facts evaluated on bucket b1 and keys
[k1, k2, k3] with a successful list-range call. -/
theorem C2_multi_delete_witness :
    "b1" ∈ ["b1"] ∧ (["k1", "k2", "k3"] : List String) ≠ [] ∧
    ((delMultipleObjs ["b1"] "b1" true (some ["k1", "k2", "k3"]) false).2 =
       some (buildObjNames ["k1", "k2", "k3"]) ∧
     buildObjNames ["k1", "k2", "k3"] = ["k1", "k2", "k3"] ∧
     BodyWrite.deleteResult (buildDeleted (buildObjNames ["k1", "k2", "k3"])) ∈
       respWrites (delMultipleObjs ["b1"] "b1" true (some ["k1", "k2", "k3"]) false).1 ∧
     (buildDeleted (buildObjNames ["k1", "k2", "k3"])).length =
       (["k1", "k2", "k3"] : List String).length) :=
  ⟨by decide, by decide,
   C2_multi_delete ["b1"] "b1" ["k1", "k2", "k3"] false (by decide) (by decide)⟩

/-- C9 counterexample: on an empty decoded key list the handler returns
having written nothing at all — the response is the bare 200 with an empty
body, not a DeleteResult document with zero entries — and the delete
primitive is never invoked. -/
theorem C9_empty_counterexample :
    delMultipleObjs ["b1"] "b1" true (some []) false = (DelResp.okEmpty, none) ∧
    DelResp.okEmpty ≠ DelResp.result [BodyWrite.deleteResult []] := by decide

/-- C9 (amended): a multi-object delete whose XML body decodes to an empty
key list returns HTTP 200 with an empty response body: the handler returns
before invoking the delete primitive or writing any DeleteResult document. -/
theorem C9_empty_multi_delete (bmd : List String) (b : String) (lrErr : Bool)
    (hb : b ∈ bmd) :
    delMultipleObjs bmd b true (some []) lrErr = (DelResp.okEmpty, none) ∧
    respWrites (delMultipleObjs bmd b true (some []) lrErr).1 = [] := by
  simp [delMultipleObjs, InitByNameOnly, hb, respWrites]

/-- C9 witness: the empty-body behavior evaluated on bucket b2. -/
theorem C9_empty_multi_delete_witness :
    "b2" ∈ ["b2"] ∧
    (delMultipleObjs ["b2"] "b2" true (some []) false = (DelResp.okEmpty, none) ∧
     respWrites (delMultipleObjs ["b2"] "b2" true (some []) false).1 = []) :=
  ⟨by decide, C9_empty_multi_delete ["b2"] "b2" false (by decide)⟩

/-! ## S3 gateway: list multipart uploads (C8)

`proxy.listMultipart`: with exactly one active target the request is
redirected to the HRW-selected target via `p.s3Redirect`; otherwise the GET
is broadcast to every target in `smap.Tmap`, each XML response is parsed,
and the `Uploads` entries are concatenated into one aggregated result. -/

/-- A parsed per-target `ListMptUploadsResult`: the `Uploads` entries plus
the remaining fields of the XML result, abstracted into `meta`. -/
structure MptResult where
  meta : String
  uploads : List String
deriving DecidableEq, Repr

/-- One step of the aggregation loop body: a failed call or unparsable XML
contributes nothing; a result with a non-empty `Uploads` list first seeds
the aggregate's other fields when the aggregate is still empty, then has its
`Uploads` appended. -/
def mptStep (all : MptResult) (r : Option MptResult) : MptResult :=
  match r with
  | none => all
  | some res =>
    if res.uploads = [] then all
    else
      let base := if all.uploads = [] then { res with uploads := ([] : List String) }
                  else all
      { base with uploads := base.uploads ++ res.uploads }

/-- The aggregation loop of `proxy.listMultipart` over the per-target
responses, starting from the empty result. -/
def aggregateMpt (rs : List (Option MptResult)) : MptResult :=
  rs.foldl mptStep ⟨"", []⟩

/-- Concatenation of the `Uploads` entries of the successfully parsed
per-target responses, in broadcast order. -/
def allUploads : List (Option MptResult) → List String
  | [] => []
  | none :: t => allUploads t
  | some res :: t => res.uploads ++ allUploads t

/-- Response of the list-multipart handler; per the spec's redirection
contract, `p.s3Redirect` replies with an HTTP 307 redirect. -/
inductive MptResp where
  | redirect307 (target : String)
  | hrwErr
  | okAggregated (res : MptResult)
deriving DecidableEq, Repr

/-- Embeds `proxy.listMultipart`: `smap.CountActiveTs() == 1` redirects to
the HRW target of the bucket; otherwise the per-target responses are
aggregated into a 200 result. -/
def listMultipart (activeTs : Nat) (hrwTarget : Option String)
    (perTarget : List (Option MptResult)) : MptResp :=
  if activeTs = 1 then
    match hrwTarget with
    | some si => .redirect307 si
    | none => .hrwErr
  else .okAggregated (aggregateMpt perTarget)

theorem foldl_mptStep_uploads (rs : List (Option MptResult)) (all : MptResult) :
    (rs.foldl mptStep all).uploads = all.uploads ++ allUploads rs := by
  induction rs generalizing all with
  | nil => simp [allUploads]
  | cons r t ih =>
    cases r with
    | none => simp [List.foldl, mptStep, allUploads, ih]
    | some res =>
      by_cases hu : res.uploads = []
      · simp [List.foldl, mptStep, allUploads, hu, ih]
      · by_cases ha : all.uploads = []
        · simp [List.foldl, mptStep, hu, ha, allUploads, ih]
        · simp [List.foldl, mptStep, hu, ha, allUploads, ih]

theorem aggregateMpt_uploads (rs : List (Option MptResult)) :
    (aggregateMpt rs).uploads = allUploads rs := by
  simp [aggregateMpt, foldl_mptStep_uploads]

/-- C8: with exactly one active target the gateway replies with a 307
redirect to that target; with more than one active target it broadcasts,
parses each response, and returns an aggregated 200 result whose Uploads
list is the concatenation of the per-target Uploads entries. -/
theorem C8_list_multipart (si : String) (ht : Option String) (n : Nat)
    (perTarget : List (Option MptResult)) (h : 1 < n) :
    listMultipart 1 (some si) perTarget = MptResp.redirect307 si ∧
    listMultipart n ht perTarget = MptResp.okAggregated (aggregateMpt perTarget) ∧
    (aggregateMpt perTarget).uploads = allUploads perTarget := by
  refine ⟨by simp [listMultipart], ?_, aggregateMpt_uploads perTarget⟩
  have hn : n ≠ 1 := by omega
  simp [listMultipart, hn]

/-- C8 witness: the handler evaluated on three targets, one of which fails
to parse, aggregating the surviving Uploads entries in order. -/
theorem C8_list_multipart_witness :
    1 < 3 ∧
    (listMultipart 1 (some "t1")
        [some ⟨"m1", ["u1"]⟩, none, some ⟨"m2", ["u2", "u3"]⟩] =
       MptResp.redirect307 "t1" ∧
     listMultipart 3 none [some ⟨"m1", ["u1"]⟩, none, some ⟨"m2", ["u2", "u3"]⟩] =
       MptResp.okAggregated
         (aggregateMpt [some ⟨"m1", ["u1"]⟩, none, some ⟨"m2", ["u2", "u3"]⟩]) ∧
     (aggregateMpt [some ⟨"m1", ["u1"]⟩, none, some ⟨"m2", ["u2", "u3"]⟩]).uploads =
       allUploads [some ⟨"m1", ["u1"]⟩, none, some ⟨"m2", ["u2", "u3"]⟩]) :=
  ⟨by decide,
   C8_list_multipart "t1" none 3
     [some ⟨"m1", ["u1"]⟩, none, some ⟨"m2", ["u2", "u3"]⟩] (by decide)⟩

/-! ## S3 gateway: GET dispatch and unsupported subresources (C10) -/

/-- Presence of the query parameters consulted by the GET branch of
`proxy.s3Handler`. -/
structure S3Query where
  lifecycle : Bool
  policy : Bool
  cors : Bool
  acl : Bool
  uploads : Bool
  versioning : Bool
deriving DecidableEq, Repr

/-- Action selected by the GET branch of `proxy.s3Handler`. `objOrMpt` is
the `p.getObjS3` path — the only GET path that can redirect to a target. -/
inductive S3GetAction where
  | listBuckets
  | errResp (code : Nat)
  | notImplemented
  | bckVersioning (b : String)
  | listObjects (b : String)
  | objOrMpt (items : List String)
deriving DecidableEq, Repr

/-- Embeds the GET branch of `proxy.s3Handler`: no path segments lists the
buckets; any of the lifecycle/policy/cors/acl query parameters routes to
`p.unsupported` (404 on unknown bucket, 501 otherwise) before the arity
dispatch; a single segment without the uploads parameter serves versioning
or list-objects; everything else goes to `p.getObjS3`. -/
def s3HandlerGet (apiItems : List String) (q : S3Query) (bmd : List String) :
    S3GetAction :=
  match apiItems with
  | [] => .listBuckets
  | b :: rest =>
    if q.lifecycle || q.policy || q.cors || q.acl then
      if b ∈ bmd then .notImplemented else .errResp 404
    else if rest.isEmpty && !q.uploads then
      if q.versioning then .bckVersioning b else .listObjects b
    else .objOrMpt (b :: rest)

/-- C10: a GET whose query contains lifecycle, policy, cors, or acl is
answered 501 after the first path segment is validated as a bucket (404 on
unknown bucket) — for any number of remaining path segments, because the
subresource check precedes the arity dispatch — and is never routed to the
object path that redirects to a target. -/
theorem C10_unsupported_subresources (b : String) (rest : List String)
    (q : S3Query) (bmd : List String)
    (h : q.lifecycle = true ∨ q.policy = true ∨ q.cors = true ∨ q.acl = true) :
    s3HandlerGet (b :: rest) q bmd =
      (if b ∈ bmd then S3GetAction.notImplemented else S3GetAction.errResp 404) ∧
    ∀ items, s3HandlerGet (b :: rest) q bmd ≠ S3GetAction.objOrMpt items := by
  have hb : (q.lifecycle || q.policy || q.cors || q.acl) = true := by
    rcases h with h | h | h | h <;> simp [h]
  constructor
  · simp [s3HandlerGet, hb]
  · intro items
    by_cases hm : b ∈ bmd <;> simp [s3HandlerGet, hb, hm]

/-- C10 witness: a two-segment (object-path) GET with the lifecycle query
parameter on a known bucket yields 501, not the object/redirect path. -/
theorem C10_unsupported_subresources_witness :
    (S3Query.mk true false false false false false).lifecycle = true ∧
    s3HandlerGet ["b1", "o1"] ⟨true, false, false, false, false, false⟩ ["b1"] =
      (if "b1" ∈ ["b1"] then S3GetAction.notImplemented
       else S3GetAction.errResp 404) ∧
    s3HandlerGet ["b1", "o1"] ⟨true, false, false, false, false, false⟩ ["b1"] ≠
      S3GetAction.objOrMpt ["b1", "o1"] :=
  ⟨rfl,
   (C10_unsupported_subresources "b1" ["o1"] ⟨true, false, false, false, false, false⟩
      ["b1"] (Or.inl rfl)).1,
   (C10_unsupported_subresources "b1" ["o1"] ⟨true, false, false, false, false, false⟩
      ["b1"] (Or.inl rfl)).2 ["b1", "o1"]⟩

end AIStore
